import Mathlib

/-!
Verification model of the MCPO subprocess supervisor found in
`src/components/mcp-config-editor.tsx` (classes `CircularBuffer`,
`MCPOManager`, admin queries of `MCPService`).

Modelling conventions:
* JavaScript `Date` / `Date.now()` values are natural-number clock readings
  passed in as explicit parameters; `Date#toISOString` in log lines is
  rendered as the decimal clock value.
* Files named `mcpo_config_<ts>.json` in the scratch directory are
  identified by their embedded timestamp `<ts> : Nat`; the directory is a
  list of such timestamps (non-matching files are invisible to both
  cleanup and the claims, which count only matching files).
* External outcomes (spawned pid, exit within the grace window, graceful
  termination, a throwing `kill`) are explicit parameters of the
  operations; the host runtime is single-threaded cooperative as in the
  source, so each public operation is modelled as one atomic step.
* `fs.unlink` during retention cleanup is modelled as succeeding
  (best-effort failures would only leave more files behind).
-/

namespace MCPO

/-- Ring buffer, from class `CircularBuffer` (maxSize default 1000):
`push` appends and `shift`s the oldest element when over capacity. -/
structure CircularBuffer (α : Type) where
  buffer : List α
  maxSize : Nat
deriving DecidableEq

def CircularBuffer.empty (α : Type) (maxSize : Nat := 1000) : CircularBuffer α :=
  ⟨[], maxSize⟩

def CircularBuffer.push {α : Type} (b : CircularBuffer α) (item : α) : CircularBuffer α :=
  let buf := b.buffer ++ [item]
  if b.maxSize < buf.length then ⟨buf.tail, b.maxSize⟩ else ⟨buf, b.maxSize⟩

def CircularBuffer.getAll {α : Type} (b : CircularBuffer α) : List α :=
  b.buffer

/-- `getLast(n)` is `buffer.slice(-n)`; JavaScript `slice(-0)` is the whole
array, and `slice(-n)` for `n ≥ length` is also the whole array. -/
def CircularBuffer.getLast {α : Type} (b : CircularBuffer α) (n : Nat) : List α :=
  if n = 0 then b.buffer else b.buffer.drop (b.buffer.length - n)

def CircularBuffer.pushAll {α : Type} (b : CircularBuffer α) (items : List α) : CircularBuffer α :=
  items.foldl CircularBuffer.push b

/-- Status enum `MCPOStatus`. -/
inductive MCPOStatus
  | stopped
  | starting
  | running
  | stopping
  | restarting
  | error
deriving DecidableEq

def MCPOStatus.str : MCPOStatus → String
  | .stopped => "stopped"
  | .starting => "starting"
  | .running => "running"
  | .stopping => "stopping"
  | .restarting => "restarting"
  | .error => "error"

/-- A `StatusChange` record `{status, timestamp, message?}`. -/
structure StatusChange where
  status : MCPOStatus
  timestamp : Nat
  message : Option String
deriving DecidableEq

/-- The spawned `ChildProcess` handle: its `pid` (possibly undefined) and
its `exitCode` (null while alive). -/
structure Proc where
  pid : Option Nat
  exitCode : Option Int
deriving DecidableEq

/-- The mutable fields of the `MCPOManager` singleton. `configFile` holds
the timestamp identifying the current generated config file. -/
structure MState where
  process : Option Proc
  status : MCPOStatus
  logs : CircularBuffer String
  statusHistory : CircularBuffer StatusChange
  startTime : Option Nat
  lastRestart : Option Nat
  restartCount : Nat
  configFile : Option Nat
  lastError : Option String
  validServers : List String
  invalidServers : List (String × String)
  isShuttingDown : Bool
deriving DecidableEq

/-- Field initialisers of `MCPOManager` (log capacity 1000, status-history
capacity 100). -/
def initMState : MState where
  process := none
  status := .stopped
  logs := CircularBuffer.empty String 1000
  statusHistory := CircularBuffer.empty StatusChange 100
  startTime := none
  lastRestart := none
  restartCount := 0
  configFile := none
  lastError := none
  validServers := []
  invalidServers := []
  isShuttingDown := false

/-- `MCPOManager.log`: pushes `[timestamp] message` onto the log ring
buffer (console output has no modelled effect). -/
def mlog (s : MState) (t : Nat) (msg : String) : MState :=
  { s with logs := s.logs.push ("[" ++ toString t ++ "] " ++ msg) }

/-- `MCPOManager.setStatus`: sets the status, appends a `StatusChange` to
the history buffer, emits to subscribers (no modelled state) and logs. -/
def setStatus (s : MState) (st : MCPOStatus) (msg : Option String) (t : Nat) : MState :=
  let s1 : MState := { s with status := st }
  let s2 : MState := { s1 with statusHistory := s1.statusHistory.push ⟨st, t, msg⟩ }
  mlog s2 t ("Status changed to: " ++ st.str ++
    (match msg with
     | some m => " - " ++ m
     | none => ""))

/-- `getStatus().uptime`: `Math.floor((Date.now() - startTime)/1000)` when
`startTime` is set, else 0. -/
def uptimeOf (s : MState) (now : Nat) : Nat :=
  match s.startTime with
  | some st => (now - st) / 1000
  | none => 0

/-- Prisma `MCPServerType` enum. -/
inductive MCPServerType
  | Local
  | Remote
deriving DecidableEq

/-- Prisma `RemoteServerType` enum. -/
inductive RemoteServerType
  | sse
  | streamableHttp
deriving DecidableEq

def RemoteServerType.str : RemoteServerType → String
  | .sse => "sse"
  | .streamableHttp => "streamable-http"

/-- A row of the `mcpServer` table, restricted to the columns the
supervisor reads. `args` models `(server.args as string[]) || []`, already
coerced. -/
structure DbServer where
  mcpServerUniqueId : String
  name : String
  serverType : MCPServerType
  command : String
  args : List String
  remoteServerType : RemoteServerType
  url : String
  headers : Option (List (String × String))
  enabled : Bool
deriving DecidableEq

/-- Lexicographic comparison by character code (the total order behind
`orderBy name asc`). -/
def charsLt : List Char → List Char → Bool
  | [], [] => false
  | [], _ :: _ => true
  | _ :: _, [] => false
  | a :: as, b :: bs =>
    if a.val < b.val then true else if b.val < a.val then false else charsLt as bs

/-- Insertion sort step for `orderBy name asc`. -/
def insertByName (r : DbServer) : List DbServer → List DbServer
  | [] => [r]
  | x :: xs =>
    if charsLt r.name.data x.name.data then r :: x :: xs else x :: insertByName r xs

def sortByName : List DbServer → List DbServer
  | [] => []
  | x :: xs => insertByName x (sortByName xs)

/-- The row set both admin queries retrieve: filtered to enabled rows and
ordered by `orderBy name asc`. -/
def adminRows (db : List DbServer) : List DbServer :=
  sortByName (db.filter (fun r => r.enabled))

/-- An entry value of the generated `mcpServers` record
(`MCPServerConfig`). -/
inductive MCPServerConfig
  | localC (command : String) (args : List String)
  | remoteC (ty : String) (url : String) (headers : Option (List (String × String)))
deriving DecidableEq

/-- JavaScript object insertion: assigning an existing key overwrites in
place, a fresh key is appended (string keys keep insertion order). -/
def objInsert (k : String) (v : MCPServerConfig) :
    List (String × MCPServerConfig) → List (String × MCPServerConfig)
  | [] => [(k, v)]
  | (k0, v0) :: rest =>
    if k0 = k then (k0, v) :: rest else (k0, v0) :: objInsert k v rest

/-- The `mcpServers` entry value built for a row (the two branches of the
loop in `getAllServersForAdmin`; both assign under `mcpServerUniqueId`). -/
def adminEntry (r : DbServer) : MCPServerConfig :=
  match r.serverType with
  | .Local => .localC r.command r.args
  | .Remote => .remoteC r.remoteServerType.str r.url r.headers

/-- `MCPService.getAllServersForAdmin`: builds `{ mcpServers }` keyed by
`mcpServerUniqueId` over all enabled rows. -/
def getAllServersForAdmin (db : List DbServer) : List (String × MCPServerConfig) :=
  (adminRows db).foldl
    (fun acc r => objInsert r.mcpServerUniqueId (adminEntry r) acc) []

/-- A value stored under a key of a `config: Record<string, unknown>`.
`other` covers values that are neither a string nor a string array; its
flag records JavaScript truthiness. -/
inductive ConfigVal
  | str (s : String)
  | arr (xs : List String)
  | other (truthy : Bool)
deriving DecidableEq

/-- JavaScript falsiness of a config value (`!command`): the empty string
is falsy, any array is truthy. -/
def ConfigVal.falsy : ConfigVal → Bool
  | .str s => s = ""
  | .arr _ => false
  | .other t => !t

/-- Display of a config value inside a template literal (approximate for
`other` values, which the claims never inspect). -/
def ConfigVal.show : ConfigVal → String
  | .str s => s
  | .arr xs => String.intercalate "," xs
  | .other _ => "[object]"

/-- The `config` record of a server passed to `validateServers`: each
field holds the value under that key when the key is present. -/
structure RowConfig where
  command : Option ConfigVal
  args : Option ConfigVal
  typeField : Option ConfigVal
  url : Option ConfigVal
  headers : Option (List (String × String))
deriving DecidableEq

/-- The element shape of the parameter of `validateServers`:
`{ uniqueId?: string; name: string; config: Record<string, unknown> }`. -/
structure MCPServerMeta where
  uniqueId : Option String
  name : String
  config : RowConfig
deriving DecidableEq

/-- `server.uniqueId || server.name` (the empty string is falsy). -/
def serverName (m : MCPServerMeta) : String :=
  match m.uniqueId with
  | some u => if u = "" then m.name else u
  | none => m.name

/-- The metadata record built for a row by
`getAllServersWithMetadataForAdmin`. -/
def metaRow (r : DbServer) : MCPServerMeta :=
  { uniqueId := some r.mcpServerUniqueId
    name := r.name
    config :=
      match r.serverType with
      | .Local =>
        { command := some (.str r.command), args := some (.arr r.args)
          typeField := none, url := none, headers := none }
      | .Remote =>
        { command := none, args := none
          typeField := some (.str r.remoteServerType.str)
          url := some (.str r.url), headers := r.headers } }

/-- `MCPService.getAllServersWithMetadataForAdmin`: same row set as
`getAllServersForAdmin`, mapped to metadata records. -/
def getAllServersWithMetadataForAdmin (db : List DbServer) : List MCPServerMeta :=
  (adminRows db).map metaRow

/-- Does the second character list begin with the first? -/
def charsLead : List Char → List Char → Bool
  | [], _ => true
  | _ :: _, [] => false
  | a :: as, b :: bs => a = b && charsLead as bs

/-- `String.startsWith`, computed on the character lists. -/
def strStartsWith (s p : String) : Bool :=
  charsLead p.data s.data

/-- One loop iteration of `MCPOManager.validateServers`, following the
branch order of the source exactly: `none` means the definition validates,
`some e` is the recorded error message. -/
def rowCheck (m : MCPServerMeta) : Option String :=
  match m.config.command with
  | some cmd =>
    if cmd.falsy then some "Missing command"
    else
      match m.config.args with
      | some (.arr _) => none
      | _ => some "Args must be an array"
  | none =>
    match m.config.typeField, m.config.url with
    | some tv, some uv =>
      match tv with
      | .str ty =>
        if ty ≠ "sse" ∧ ty ≠ "streamable-http" then
          some ("Invalid type: " ++ ty)
        else
          match uv with
          | .str u =>
            if u = "" ∨ strStartsWith u "http" = false then some ("Invalid URL: " ++ u)
            else none
          | v => some ("Invalid URL: " ++ v.show)
      | v => some ("Invalid type: " ++ v.show)
    | _, _ => some "Invalid server configuration"

/-- Result record of `validateServers`. -/
structure ValidationResult where
  valid : Bool
  errors : List (String × String)
  validServers : List String
  invalidServers : List String
deriving DecidableEq

/-- The loop of `validateServers`: accumulates `errors`, `validServers`
and `invalidServers` in input order. -/
def validateGo : List MCPServerMeta → List (String × String) × List String × List String
  | [] => ([], [], [])
  | m :: rest =>
    let r := validateGo rest
    match rowCheck m with
    | none => (r.1, serverName m :: r.2.1, r.2.2)
    | some e => ((serverName m, e) :: r.1, r.2.1, serverName m :: r.2.2)

/-- `MCPOManager.validateServers` (validation outcome; its two log lines
per call are emitted by `validateServersM` below — classification itself
performs no logging, so the interleaving is immaterial to the buffer). -/
def validateServers (servers : List MCPServerMeta) : ValidationResult :=
  let r := validateGo servers
  { valid := r.1.isEmpty
    errors := r.1
    validServers := r.2.1
    invalidServers := r.2.2 }

def validatingLine (m : MCPServerMeta) : String :=
  "Validating server: " ++ serverName m ++ " (uniqueId: " ++
    (match m.uniqueId with
     | some u => u
     | none => "undefined") ++ ", name: " ++ m.name ++ ")"

/-- `validateServers` together with its log side effects: the header line
and one line per server. -/
def validateServersM (s : MState) (t : Nat) (servers : List MCPServerMeta) :
    ValidationResult × MState :=
  let s1 := mlog s t ("Validating " ++ toString servers.length ++ " servers from database")
  let s2 := servers.foldl (fun st m => mlog st t (validatingLine m)) s1
  (validateServers servers, s2)

def fileNameOf (t : Nat) : String :=
  "mcpo_config_" ++ toString t ++ ".json"

def pathOf (t : Nat) : String :=
  ".tmp/" ++ fileNameOf t

/-- Insertion sort step for `sort((a, b) => b.timestamp - a.timestamp)`
(newest first). -/
def insertDesc (x : Nat) : List Nat → List Nat
  | [] => [x]
  | y :: ys => if y < x then x :: y :: ys else y :: insertDesc x ys

def sortDesc : List Nat → List Nat
  | [] => []
  | x :: xs => insertDesc x (sortDesc xs)

/-- `MCPOManager.cleanupOldConfigFiles`: when more than 3 matching files
exist, keeps the 3 with the largest embedded timestamps and deletes the
rest (deletions modelled as succeeding). -/
def cleanupOldConfigFiles (s : MState) (dir : List Nat) (t : Nat) : MState × List Nat :=
  let s1 := mlog s t "Starting cleanup of old config files in .tmp"
  let s2 := mlog s1 t ("Found " ++ toString dir.length ++ " config files: [" ++
    String.intercalate ", " (dir.map fileNameOf) ++ "]")
  if 3 < dir.length then
    let sorted := sortDesc dir
    let toDelete := sorted.drop 3
    let s3 := mlog s2 t ("Will delete " ++ toString toDelete.length ++ " old files: [" ++
      String.intercalate ", " (toDelete.map fileNameOf) ++ "]")
    let s4 := toDelete.foldl
      (fun st f => mlog st t ("Successfully deleted old config file: " ++ fileNameOf f)) s3
    (s4, sorted.take 3)
  else
    (mlog s2 t ("Only " ++ toString dir.length ++ " config files found, no cleanup needed"),
     dir)

/-- JavaScript object assignment `map[k] = v` on a string-valued record
(used for `this.invalidServers`). -/
def recSet (k v : String) : List (String × String) → List (String × String)
  | [] => [(k, v)]
  | (k0, v0) :: rest =>
    if k0 = k then (k0, v) :: rest else (k0, v0) :: recSet k v rest

/-- Outcome of `generateConfig`: the returned path (`none` models the
`null` failure return), the scratch directory afterwards, the content
written (keys of the `mcpServers` object of the file), and the manager state. -/
structure GenOut where
  path : Option Nat
  dir : List Nat
  written : Option (List (String × MCPServerConfig))
  mgr : MState
deriving DecidableEq

/-- `MCPOManager.generateConfig`: validate all admin rows, store the
validation outcome, fail with `null` when nothing validates, otherwise
filter the admin config to the valid ids, run retention cleanup, write the
timestamp-named file, unlink the previously referenced file, and return
the new path. -/
def generateConfig (db : List DbServer) (dir : List Nat) (s : MState) (now : Nat) : GenOut :=
  let servers := getAllServersWithMetadataForAdmin db
  let vr := validateServersM s now servers
  let validation := vr.1
  let s2 : MState := { vr.2 with validServers := validation.validServers }
  let s3 : MState :=
    { s2 with invalidServers := validation.errors.foldl (fun m p => recSet p.1 p.2 m) [] }
  if validation.validServers.isEmpty then
    let msg := "No valid servers found in configuration"
    let s4 := mlog s3 now ("Failed to generate config: " ++ msg)
    ⟨none, dir, none, { s4 with lastError := some msg }⟩
  else
    let config := getAllServersForAdmin db
    let s4 := mlog s3 now ("Raw config keys: [" ++
      String.intercalate ", " (config.map Prod.fst) ++ "]")
    let s5 := mlog s4 now ("Valid server keys: [" ++
      String.intercalate ", " validation.validServers ++ "]")
    let filtered := config.filter (fun kv => validation.validServers.contains kv.1)
    let s6 := mlog s5 now ("Filtered config keys: [" ++
      String.intercalate ", " (filtered.map Prod.fst) ++ "]")
    let cl := cleanupOldConfigFiles s6 dir now
    let configPath := now
    let dir2 := if cl.2.contains configPath then cl.2 else cl.2 ++ [configPath]
    let dir3 :=
      match cl.1.configFile with
      | some old => if old ≠ configPath then dir2.erase old else dir2
      | none => dir2
    let s7 : MState := { cl.1 with configFile := some configPath }
    let s8 := mlog s7 now ("Generated config with " ++
      toString validation.validServers.length ++ " valid servers: " ++ pathOf configPath)
    ⟨some configPath, dir3, some filtered, s8⟩

/-- The world the supervisor acts on: its own state, the scratch
directory, the database rows, and the two required environment values. -/
structure World where
  mgr : MState
  dir : List Nat
  db : List DbServer
  apiKey : Option String
  port : Option String
deriving DecidableEq

/-- Result of a lifecycle operation: the new world and the thrown error
message when the operation rejected. -/
structure OpOut where
  w : World
  thrown : Option String
deriving DecidableEq

def portErrMsg : String :=
  "NEXT_PUBLIC_MCPO_PORT environment variable is required but not set. " ++
  "Please set NEXT_PUBLIC_MCPO_PORT in your environment (e.g., NEXT_PUBLIC_MCPO_PORT=8000)"

/-- The `catch` block of `start()`: record `lastError`, transition to
`error`, re-throw. -/
def startCatch (w : World) (s : MState) (t : Nat) (msg : String) : OpOut :=
  let s1 : MState := { s with lastError := some msg }
  let s2 := setStatus s1 .error (some ("Failed to start MCPO: " ++ msg)) t
  ⟨{ w with mgr := s2 }, some msg⟩

def showOptInt : Option Int → String
  | some c => toString c
  | none => "null"

def showOptStr : Option String → String
  | some s => s
  | none => "null"

/-- The `exit` handler installed by `setupProcessHandlers`: logs the exit
and, unless an intentional stop is in flight, records the error,
transitions to `error`, and — when `restartCount < 3` — schedules an
auto-restart after `5000 * (restartCount + 1)` ms (the scheduled delay is
the second component; `none` means nothing is scheduled). -/
def exitHandler (s : MState) (code : Option Int) (signal : Option String) (t : Nat) :
    MState × Option Nat :=
  let s1 := mlog s t ("MCPO exited with code " ++ showOptInt code ++
    " and signal " ++ showOptStr signal)
  if s1.isShuttingDown then (s1, none)
  else
    let msg := "Process exited unexpectedly with code " ++ showOptInt code
    let s2 : MState := { s1 with lastError := some msg }
    let s3 := setStatus s2 .error (some msg) t
    if s3.restartCount < 3 then (s3, some (5000 * (s3.restartCount + 1)))
    else (s3, none)

/-- The `error` handler installed by `setupProcessHandlers`. -/
def errorHandler (s : MState) (msg : String) (t : Nat) : MState :=
  let s1 : MState := { s with lastError := some msg }
  let s2 := mlog s1 t ("MCPO process error: " ++ msg)
  setStatus s2 .error (some ("Process error: " ++ msg)) t

/-- `MCPOManager.start`. Parameters: `t` the clock at the call, `spawnPid`
the pid the spawn produced (`none`: a handle without a pid), `graceExit`
the exit code when the child exits inside the 2-second grace window (the
exit handler fires during the window, before the immediate-exit check; a
signal-only exit inside the window is not modelled). On survival,
`startTime` is read at `t + 2000`. -/
def start (w : World) (t : Nat) (spawnPid : Option Nat) (graceExit : Option Int) : OpOut :=
  let s := w.mgr
  if s.process.isSome ∧ s.status = .running then
    ⟨{ w with mgr := mlog s t "MCPO is already running" }, none⟩
  else
    let s1 := setStatus s .starting (some "Initializing MCPO...") t
    let g := generateConfig w.db w.dir s1 t
    let w1 : World := { w with dir := g.dir }
    match g.path with
    | none => startCatch w1 g.mgr t "Failed to generate configuration"
    | some cfg =>
      match w.apiKey with
      | none => startCatch w1 g.mgr t "MCPO_API_KEY not found in environment"
      | some key =>
        match w.port with
        | none => startCatch w1 g.mgr t portErrMsg
        | some port =>
          let s2 := mlog g.mgr t ("Starting MCPO: uvx mcpo --config " ++ pathOf cfg ++
            " --api-key " ++ key ++ " --port " ++ port)
          let s3 : MState := { s2 with process := some ⟨spawnPid, none⟩ }
          match spawnPid with
          | none => startCatch w1 s3 t "Failed to start MCPO process"
          | some pid =>
            match graceExit with
            | some code =>
              let s4 : MState := { s3 with process := some ⟨spawnPid, some code⟩ }
              let s5 := (exitHandler s4 (some code) none t).1
              startCatch w1 s5 t ("MCPO exited immediately with code " ++ toString code)
            | none =>
              let s4 : MState := { s3 with startTime := some (t + 2000) }
              let s5 := setStatus s4 .running
                (some ("MCPO started with PID " ++ toString pid)) (t + 2000)
              let s6 := mlog s5 (t + 2000) ("MCPO is running on http://localhost:" ++ port)
              ⟨{ w1 with mgr := s6 }, none⟩

/-- `MCPOManager.stop`. Parameters: `graceful` — whether the child process and its
`exitCode` became non-null inside the 10-second window; `killThrow` — the
message when termination throws (the `finally` block resets
`isShuttingDown` on every path past the early return). -/
def stop (w : World) (t : Nat) (graceful : Bool) (killThrow : Option String) : OpOut :=
  let s := w.mgr
  if s.process.isNone ∨ s.status = .stopped then
    ⟨{ w with mgr := mlog s t "MCPO is not running" }, none⟩
  else
    let s1 : MState := { s with isShuttingDown := true }
    let s2 := setStatus s1 .stopping (some "Shutting down MCPO...") t
    match killThrow with
    | some err =>
      let s3 : MState := { s2 with lastError := some err }
      let s4 := setStatus s3 .error (some ("Failed to stop MCPO: " ++ err)) t
      ⟨{ w with mgr := { s4 with isShuttingDown := false } }, some err⟩
    | none =>
      let exited := (s2.process.bind Proc.exitCode).isSome ∨ graceful
      let s3 := if exited then s2 else mlog s2 t "MCPO did not stop gracefully, force killing..."
      let s4 : MState := { s3 with process := none }
      let s5 : MState := { s4 with startTime := none }
      let s6 := setStatus s5 .stopped (some "MCPO stopped") t
      ⟨{ w with mgr := { s6 with isShuttingDown := false } }, none⟩

/-- `MCPOManager.restart`: transition to `restarting`, increment
`restartCount`, record `lastRestart`, then `stop()` followed by `start()`
(a throwing `stop` propagates and skips the `start`). -/
def restart (w : World) (t t2 : Nat) (graceful : Bool) (killThrow : Option String)
    (spawnPid : Option Nat) (graceExit : Option Int) : OpOut :=
  let s1 := setStatus w.mgr .restarting (some "Restarting MCPO...") t
  let s2 : MState := { s1 with restartCount := s1.restartCount + 1 }
  let s3 : MState := { s2 with lastRestart := some t }
  let r1 := stop { w with mgr := s3 } t graceful killThrow
  match r1.thrown with
  | some e => ⟨r1.w, some e⟩
  | none => start r1.w t2 spawnPid graceExit

/-- External and internal happenings driving the supervisor. -/
inductive Event
  | evStart (t : Nat) (spawnPid : Option Nat) (graceExit : Option Int)
  | evStop (t : Nat) (graceful : Bool) (killThrow : Option String)
  | evRestart (t t2 : Nat) (graceful : Bool) (killThrow : Option String)
      (spawnPid : Option Nat) (graceExit : Option Int)
  | evProcExit (t : Nat) (code : Option Int) (signal : Option String)
  | evProcError (t : Nat) (msg : String)
  | evGenerateConfig (t : Nat)
  | evSetDb (db : List DbServer)

/-- One atomic step of the supervisor (cooperative single-threaded host,
as in the source): public operations, child-process events, database
writes. -/
def step (w : World) (e : Event) : World :=
  match e with
  | .evStart t p g => (start w t p g).w
  | .evStop t g k => (stop w t g k).w
  | .evRestart t t2 g k p ge => (restart w t t2 g k p ge).w
  | .evProcExit t code sig =>
    match w.mgr.process with
    | none => w
    | some p =>
      let s1 : MState := { w.mgr with process := some { p with exitCode := code } }
      { w with mgr := (exitHandler s1 code sig t).1 }
  | .evProcError t msg =>
    if w.mgr.process.isSome then { w with mgr := errorHandler w.mgr msg t } else w
  | .evGenerateConfig t =>
    let g := generateConfig w.db w.dir w.mgr t
    { w with mgr := g.mgr, dir := g.dir }
  | .evSetDb db => { w with db := db }

def runTrace (w : World) (tr : List Event) : World :=
  tr.foldl step w

/-- Worlds whose manager carries the field initialisers of the singleton (the
directory, database and environment are arbitrary external state). -/
def WInit (w : World) : Prop :=
  w.mgr = initMState

def Reachable (w : World) : Prop :=
  ∃ w0 tr, WInit w0 ∧ runTrace w0 tr = w

@[simp] theorem mlog_process (s : MState) (t : Nat) (m : String) :
    (mlog s t m).process = s.process := rfl

@[simp] theorem mlog_status (s : MState) (t : Nat) (m : String) :
    (mlog s t m).status = s.status := rfl

@[simp] theorem mlog_startTime (s : MState) (t : Nat) (m : String) :
    (mlog s t m).startTime = s.startTime := rfl

@[simp] theorem mlog_lastRestart (s : MState) (t : Nat) (m : String) :
    (mlog s t m).lastRestart = s.lastRestart := rfl

@[simp] theorem mlog_restartCount (s : MState) (t : Nat) (m : String) :
    (mlog s t m).restartCount = s.restartCount := rfl

@[simp] theorem mlog_configFile (s : MState) (t : Nat) (m : String) :
    (mlog s t m).configFile = s.configFile := rfl

@[simp] theorem mlog_lastError (s : MState) (t : Nat) (m : String) :
    (mlog s t m).lastError = s.lastError := rfl

@[simp] theorem mlog_validServers (s : MState) (t : Nat) (m : String) :
    (mlog s t m).validServers = s.validServers := rfl

@[simp] theorem mlog_invalidServers (s : MState) (t : Nat) (m : String) :
    (mlog s t m).invalidServers = s.invalidServers := rfl

@[simp] theorem mlog_isShuttingDown (s : MState) (t : Nat) (m : String) :
    (mlog s t m).isShuttingDown = s.isShuttingDown := rfl

@[simp] theorem setStatus_process (s : MState) (st : MCPOStatus) (m : Option String) (t : Nat) :
    (setStatus s st m t).process = s.process := rfl

@[simp] theorem setStatus_status (s : MState) (st : MCPOStatus) (m : Option String) (t : Nat) :
    (setStatus s st m t).status = st := rfl

@[simp] theorem setStatus_startTime (s : MState) (st : MCPOStatus) (m : Option String) (t : Nat) :
    (setStatus s st m t).startTime = s.startTime := rfl

@[simp] theorem setStatus_lastRestart (s : MState) (st : MCPOStatus) (m : Option String) (t : Nat) :
    (setStatus s st m t).lastRestart = s.lastRestart := rfl

@[simp] theorem setStatus_restartCount (s : MState) (st : MCPOStatus) (m : Option String) (t : Nat) :
    (setStatus s st m t).restartCount = s.restartCount := rfl

@[simp] theorem setStatus_configFile (s : MState) (st : MCPOStatus) (m : Option String) (t : Nat) :
    (setStatus s st m t).configFile = s.configFile := rfl

@[simp] theorem setStatus_lastError (s : MState) (st : MCPOStatus) (m : Option String) (t : Nat) :
    (setStatus s st m t).lastError = s.lastError := rfl

@[simp] theorem setStatus_validServers (s : MState) (st : MCPOStatus) (m : Option String) (t : Nat) :
    (setStatus s st m t).validServers = s.validServers := rfl

@[simp] theorem setStatus_invalidServers (s : MState) (st : MCPOStatus) (m : Option String) (t : Nat) :
    (setStatus s st m t).invalidServers = s.invalidServers := rfl

@[simp] theorem setStatus_isShuttingDown (s : MState) (st : MCPOStatus) (m : Option String) (t : Nat) :
    (setStatus s st m t).isShuttingDown = s.isShuttingDown := rfl

/-- Fields of the manager state that the logging layer leaves alone:
everything except the log buffer itself. -/
structure EqButLogs (s s' : MState) : Prop where
  process : s'.process = s.process
  status : s'.status = s.status
  statusHistory : s'.statusHistory = s.statusHistory
  startTime : s'.startTime = s.startTime
  lastRestart : s'.lastRestart = s.lastRestart
  restartCount : s'.restartCount = s.restartCount
  configFile : s'.configFile = s.configFile
  lastError : s'.lastError = s.lastError
  validServers : s'.validServers = s.validServers
  invalidServers : s'.invalidServers = s.invalidServers
  isShuttingDown : s'.isShuttingDown = s.isShuttingDown

theorem eqButLogs_refl (s : MState) : EqButLogs s s :=
  ⟨rfl, rfl, rfl, rfl, rfl, rfl, rfl, rfl, rfl, rfl, rfl⟩

theorem eqButLogs_trans {s1 s2 s3 : MState} (h1 : EqButLogs s1 s2) (h2 : EqButLogs s2 s3) :
    EqButLogs s1 s3 :=
  ⟨h2.process.trans h1.process, h2.status.trans h1.status,
   h2.statusHistory.trans h1.statusHistory, h2.startTime.trans h1.startTime,
   h2.lastRestart.trans h1.lastRestart, h2.restartCount.trans h1.restartCount,
   h2.configFile.trans h1.configFile, h2.lastError.trans h1.lastError,
   h2.validServers.trans h1.validServers, h2.invalidServers.trans h1.invalidServers,
   h2.isShuttingDown.trans h1.isShuttingDown⟩

theorem eqButLogs_mlog (s : MState) (t : Nat) (m : String) : EqButLogs s (mlog s t m) :=
  ⟨rfl, rfl, rfl, rfl, rfl, rfl, rfl, rfl, rfl, rfl, rfl⟩

theorem eqButLogs_foldl_mlog {α : Type} (f : α → String) (t : Nat) (l : List α) (s : MState) :
    EqButLogs s (l.foldl (fun st m => mlog st t (f m)) s) := by
  induction l generalizing s with
  | nil => exact eqButLogs_refl s
  | cons x xs ih =>
    exact eqButLogs_trans (eqButLogs_mlog s t (f x)) (ih (mlog s t (f x)))

@[simp] theorem validateServersM_fst (s : MState) (t : Nat) (servers : List MCPServerMeta) :
    (validateServersM s t servers).1 = validateServers servers := rfl

theorem eqButLogs_validateServersM (s : MState) (t : Nat) (servers : List MCPServerMeta) :
    EqButLogs s (validateServersM s t servers).2 := by
  unfold validateServersM
  exact eqButLogs_trans (eqButLogs_mlog s t _) (eqButLogs_foldl_mlog validatingLine t servers _)

@[simp] theorem validateServersM_process (s : MState) (t : Nat) (l : List MCPServerMeta) :
    (validateServersM s t l).2.process = s.process :=
  (eqButLogs_validateServersM s t l).process

@[simp] theorem validateServersM_status (s : MState) (t : Nat) (l : List MCPServerMeta) :
    (validateServersM s t l).2.status = s.status :=
  (eqButLogs_validateServersM s t l).status

@[simp] theorem validateServersM_startTime (s : MState) (t : Nat) (l : List MCPServerMeta) :
    (validateServersM s t l).2.startTime = s.startTime :=
  (eqButLogs_validateServersM s t l).startTime

@[simp] theorem validateServersM_lastRestart (s : MState) (t : Nat) (l : List MCPServerMeta) :
    (validateServersM s t l).2.lastRestart = s.lastRestart :=
  (eqButLogs_validateServersM s t l).lastRestart

@[simp] theorem validateServersM_restartCount (s : MState) (t : Nat) (l : List MCPServerMeta) :
    (validateServersM s t l).2.restartCount = s.restartCount :=
  (eqButLogs_validateServersM s t l).restartCount

@[simp] theorem validateServersM_configFile (s : MState) (t : Nat) (l : List MCPServerMeta) :
    (validateServersM s t l).2.configFile = s.configFile :=
  (eqButLogs_validateServersM s t l).configFile

@[simp] theorem validateServersM_isShuttingDown (s : MState) (t : Nat) (l : List MCPServerMeta) :
    (validateServersM s t l).2.isShuttingDown = s.isShuttingDown :=
  (eqButLogs_validateServersM s t l).isShuttingDown

theorem eqButLogs_cleanup (s : MState) (dir : List Nat) (t : Nat) :
    EqButLogs s (cleanupOldConfigFiles s dir t).1 := by
  unfold cleanupOldConfigFiles
  split
  · exact eqButLogs_trans
      (eqButLogs_trans
        (eqButLogs_trans (eqButLogs_mlog _ _ _) (eqButLogs_mlog _ _ _))
        (eqButLogs_mlog _ _ _))
      (eqButLogs_foldl_mlog _ t _ _)
  · exact eqButLogs_trans
      (eqButLogs_trans (eqButLogs_mlog _ _ _) (eqButLogs_mlog _ _ _))
      (eqButLogs_mlog _ _ _)

@[simp] theorem cleanup_process (s : MState) (dir : List Nat) (t : Nat) :
    (cleanupOldConfigFiles s dir t).1.process = s.process :=
  (eqButLogs_cleanup s dir t).process

@[simp] theorem cleanup_status (s : MState) (dir : List Nat) (t : Nat) :
    (cleanupOldConfigFiles s dir t).1.status = s.status :=
  (eqButLogs_cleanup s dir t).status

@[simp] theorem cleanup_startTime (s : MState) (dir : List Nat) (t : Nat) :
    (cleanupOldConfigFiles s dir t).1.startTime = s.startTime :=
  (eqButLogs_cleanup s dir t).startTime

@[simp] theorem cleanup_lastRestart (s : MState) (dir : List Nat) (t : Nat) :
    (cleanupOldConfigFiles s dir t).1.lastRestart = s.lastRestart :=
  (eqButLogs_cleanup s dir t).lastRestart

@[simp] theorem cleanup_restartCount (s : MState) (dir : List Nat) (t : Nat) :
    (cleanupOldConfigFiles s dir t).1.restartCount = s.restartCount :=
  (eqButLogs_cleanup s dir t).restartCount

@[simp] theorem cleanup_configFile (s : MState) (dir : List Nat) (t : Nat) :
    (cleanupOldConfigFiles s dir t).1.configFile = s.configFile :=
  (eqButLogs_cleanup s dir t).configFile

@[simp] theorem cleanup_isShuttingDown (s : MState) (dir : List Nat) (t : Nat) :
    (cleanupOldConfigFiles s dir t).1.isShuttingDown = s.isShuttingDown :=
  (eqButLogs_cleanup s dir t).isShuttingDown

/-- Fields of the manager state `generateConfig` never writes. -/
structure EqCore (s s' : MState) : Prop where
  process : s'.process = s.process
  status : s'.status = s.status
  startTime : s'.startTime = s.startTime
  lastRestart : s'.lastRestart = s.lastRestart
  restartCount : s'.restartCount = s.restartCount
  isShuttingDown : s'.isShuttingDown = s.isShuttingDown

theorem generateConfig_core (db : List DbServer) (dir : List Nat) (s : MState) (now : Nat) :
    EqCore s (generateConfig db dir s now).mgr := by
  refine ⟨?_, ?_, ?_, ?_, ?_, ?_⟩ <;>
    (simp only [generateConfig]; split <;> simp)

@[simp] theorem generateConfig_process (db : List DbServer) (dir : List Nat) (s : MState)
    (now : Nat) : (generateConfig db dir s now).mgr.process = s.process :=
  (generateConfig_core db dir s now).process

@[simp] theorem generateConfig_status (db : List DbServer) (dir : List Nat) (s : MState)
    (now : Nat) : (generateConfig db dir s now).mgr.status = s.status :=
  (generateConfig_core db dir s now).status

@[simp] theorem generateConfig_startTime (db : List DbServer) (dir : List Nat) (s : MState)
    (now : Nat) : (generateConfig db dir s now).mgr.startTime = s.startTime :=
  (generateConfig_core db dir s now).startTime

@[simp] theorem generateConfig_lastRestart (db : List DbServer) (dir : List Nat) (s : MState)
    (now : Nat) : (generateConfig db dir s now).mgr.lastRestart = s.lastRestart :=
  (generateConfig_core db dir s now).lastRestart

@[simp] theorem generateConfig_restartCount (db : List DbServer) (dir : List Nat) (s : MState)
    (now : Nat) : (generateConfig db dir s now).mgr.restartCount = s.restartCount :=
  (generateConfig_core db dir s now).restartCount

@[simp] theorem generateConfig_isShuttingDown (db : List DbServer) (dir : List Nat) (s : MState)
    (now : Nat) : (generateConfig db dir s now).mgr.isShuttingDown = s.isShuttingDown :=
  (generateConfig_core db dir s now).isShuttingDown

@[simp] theorem startCatch_restartCount (w : World) (s : MState) (t : Nat) (m : String) :
    (startCatch w s t m).w.mgr.restartCount = s.restartCount := rfl

@[simp] theorem startCatch_lastRestart (w : World) (s : MState) (t : Nat) (m : String) :
    (startCatch w s t m).w.mgr.lastRestart = s.lastRestart := rfl

@[simp] theorem startCatch_startTime (w : World) (s : MState) (t : Nat) (m : String) :
    (startCatch w s t m).w.mgr.startTime = s.startTime := rfl

@[simp] theorem startCatch_isShuttingDown (w : World) (s : MState) (t : Nat) (m : String) :
    (startCatch w s t m).w.mgr.isShuttingDown = s.isShuttingDown := rfl

@[simp] theorem startCatch_status (w : World) (s : MState) (t : Nat) (m : String) :
    (startCatch w s t m).w.mgr.status = .error := rfl

@[simp] theorem exitHandler_restartCount (s : MState) (c : Option Int) (sig : Option String)
    (t : Nat) : (exitHandler s c sig t).1.restartCount = s.restartCount := by
  simp only [exitHandler]; split <;> (try split) <;> simp

@[simp] theorem exitHandler_startTime (s : MState) (c : Option Int) (sig : Option String)
    (t : Nat) : (exitHandler s c sig t).1.startTime = s.startTime := by
  simp only [exitHandler]; split <;> (try split) <;> simp

@[simp] theorem exitHandler_lastRestart (s : MState) (c : Option Int) (sig : Option String)
    (t : Nat) : (exitHandler s c sig t).1.lastRestart = s.lastRestart := by
  simp only [exitHandler]; split <;> (try split) <;> simp

@[simp] theorem exitHandler_isShuttingDown (s : MState) (c : Option Int) (sig : Option String)
    (t : Nat) : (exitHandler s c sig t).1.isShuttingDown = s.isShuttingDown := by
  simp only [exitHandler]; split <;> (try split) <;> simp

@[simp] theorem exitHandler_process (s : MState) (c : Option Int) (sig : Option String)
    (t : Nat) : (exitHandler s c sig t).1.process = s.process := by
  simp only [exitHandler]; split <;> (try split) <;> simp

theorem start_restartCount (w : World) (t : Nat) (p : Option Nat) (g : Option Int) :
    (start w t p g).w.mgr.restartCount = w.mgr.restartCount := by
  simp only [start]
  split
  · simp
  · split <;> (try split) <;> (try split) <;> (try split) <;> (try split) <;> simp

theorem start_lastRestart (w : World) (t : Nat) (p : Option Nat) (g : Option Int) :
    (start w t p g).w.mgr.lastRestart = w.mgr.lastRestart := by
  simp only [start]
  split
  · simp
  · split <;> (try split) <;> (try split) <;> (try split) <;> (try split) <;> simp

theorem start_isShuttingDown (w : World) (t : Nat) (p : Option Nat) (g : Option Int) :
    (start w t p g).w.mgr.isShuttingDown = w.mgr.isShuttingDown := by
  simp only [start]
  split
  · simp
  · split <;> (try split) <;> (try split) <;> (try split) <;> (try split) <;> simp

theorem stop_restartCount (w : World) (t : Nat) (g : Bool) (k : Option String) :
    (stop w t g k).w.mgr.restartCount = w.mgr.restartCount := by
  simp only [stop]
  split
  · simp
  · split <;> (try split) <;> simp

theorem stop_lastRestart (w : World) (t : Nat) (g : Bool) (k : Option String) :
    (stop w t g k).w.mgr.lastRestart = w.mgr.lastRestart := by
  simp only [stop]
  split
  · simp
  · split <;> (try split) <;> simp

theorem stop_flag (w : World) (t : Nat) (g : Bool) (k : Option String)
    (h : w.mgr.isShuttingDown = false) : (stop w t g k).w.mgr.isShuttingDown = false := by
  simp only [stop]
  split
  · simpa using h
  · split <;> (try split) <;> simp

theorem restart_rc (w : World) (t t2 : Nat) (g : Bool) (k : Option String)
    (p : Option Nat) (ge : Option Int) :
    (restart w t t2 g k p ge).w.mgr.restartCount = w.mgr.restartCount + 1 := by
  simp only [restart]
  split <;> simp [start_restartCount, stop_restartCount]

theorem restart_lastRestart (w : World) (t t2 : Nat) (g : Bool) (k : Option String)
    (p : Option Nat) (ge : Option Int) :
    (restart w t t2 g k p ge).w.mgr.lastRestart = some t := by
  simp only [restart]
  split <;> simp [start_lastRestart, stop_lastRestart]

/-- The state-machine invariant: no intentional shutdown is in flight
between operations, and a `stopped` status always carries a cleared
`startedAt`. -/
def Inv (s : MState) : Prop :=
  s.isShuttingDown = false ∧ (s.status = .stopped → s.startTime = none)

theorem start_stopped (w : World) (t : Nat) (p : Option Nat) (g : Option Int)
    (h : w.mgr.status = .stopped → w.mgr.startTime = none) :
    (start w t p g).w.mgr.status = .stopped → (start w t p g).w.mgr.startTime = none := by
  simp only [start]
  split
  · simpa using h
  · split <;> (try split) <;> (try split) <;> (try split) <;> (try split) <;> simp

theorem stop_stopped (w : World) (t : Nat) (g : Bool) (k : Option String)
    (h : w.mgr.status = .stopped → w.mgr.startTime = none) :
    (stop w t g k).w.mgr.status = .stopped → (stop w t g k).w.mgr.startTime = none := by
  simp only [stop]
  split
  · simpa using h
  · split <;> (try split) <;> simp

theorem exitHandler_stopped (s : MState) (c : Option Int) (sig : Option String) (t : Nat)
    (h : s.status = .stopped → s.startTime = none) :
    (exitHandler s c sig t).1.status = .stopped → (exitHandler s c sig t).1.startTime = none := by
  simp only [exitHandler]
  split <;> (try split) <;> simpa using h

@[simp] theorem errorHandler_isShuttingDown (s : MState) (m : String) (t : Nat) :
    (errorHandler s m t).isShuttingDown = s.isShuttingDown := rfl

@[simp] theorem errorHandler_status (s : MState) (m : String) (t : Nat) :
    (errorHandler s m t).status = .error := rfl

theorem start_inv (w : World) (t : Nat) (p : Option Nat) (g : Option Int)
    (h : Inv w.mgr) : Inv (start w t p g).w.mgr := by
  refine ⟨?_, start_stopped w t p g h.2⟩
  rw [start_isShuttingDown]
  exact h.1

theorem stop_inv (w : World) (t : Nat) (g : Bool) (k : Option String)
    (h : Inv w.mgr) : Inv (stop w t g k).w.mgr :=
  ⟨stop_flag w t g k h.1, stop_stopped w t g k h.2⟩

theorem restart_inv (w : World) (t t2 : Nat) (g : Bool) (k : Option String)
    (p : Option Nat) (ge : Option Int) (h : Inv w.mgr) :
    Inv (restart w t t2 g k p ge).w.mgr := by
  obtain ⟨h1, h2⟩ := h
  simp only [restart]
  split
  · exact ⟨stop_flag _ _ _ _ (by simp [h1]), stop_stopped _ _ _ _ (by simp)⟩
  · refine ⟨?_, start_stopped _ _ _ _ (stop_stopped _ _ _ _ (by simp))⟩
    rw [start_isShuttingDown]
    exact stop_flag _ _ _ _ (by simp [h1])

theorem inv_step (w : World) (e : Event) (h : Inv w.mgr) : Inv (step w e).mgr := by
  obtain ⟨h1, h2⟩ := h
  cases e with
  | evStart t p g => exact start_inv w t p g ⟨h1, h2⟩
  | evStop t g k => exact stop_inv w t g k ⟨h1, h2⟩
  | evRestart t t2 g k p ge => exact restart_inv w t t2 g k p ge ⟨h1, h2⟩
  | evProcExit t code sig =>
    simp only [step]
    cases hp : w.mgr.process with
    | none => exact ⟨h1, h2⟩
    | some pr =>
      refine ⟨?_, exitHandler_stopped _ _ _ _ (by simpa using h2)⟩
      rw [exitHandler_isShuttingDown]
      simpa using h1
  | evProcError t msg =>
    simp only [step]
    split
    · exact ⟨by simpa using h1, by simp⟩
    · exact ⟨h1, h2⟩
  | evGenerateConfig t =>
    constructor
    · simp only [step]
      rw [generateConfig_isShuttingDown]
      exact h1
    · simp only [step]
      intro hs
      rw [generateConfig_startTime]
      apply h2
      rw [← generateConfig_status w.db w.dir w.mgr t]
      exact hs
  | evSetDb db => exact ⟨h1, h2⟩

theorem runTrace_inv (w0 : World) (tr : List Event) (h : Inv w0.mgr) :
    Inv (runTrace w0 tr).mgr := by
  induction tr generalizing w0 with
  | nil => exact h
  | cons e rest ih => exact ih (step w0 e) (inv_step w0 e h)

theorem reachable_inv (w : World) (h : Reachable w) : Inv w.mgr := by
  obtain ⟨w0, tr, hi, rfl⟩ := h
  apply runTrace_inv
  rw [WInit] at hi
  rw [hi]
  exact ⟨rfl, fun _ => rfl⟩

theorem validateGo_errors (l : List MCPServerMeta) :
    (validateGo l).1 =
      (l.filter (fun m => (rowCheck m).isSome)).map
        (fun m => (serverName m, (rowCheck m).getD "")) := by
  induction l with
  | nil => rfl
  | cons m rest ih =>
    simp only [validateGo]
    cases h : rowCheck m <;> simp [h, ih]

theorem validateGo_valid (l : List MCPServerMeta) :
    (validateGo l).2.1 = (l.filter (fun m => (rowCheck m).isNone)).map serverName := by
  induction l with
  | nil => rfl
  | cons m rest ih =>
    simp only [validateGo]
    cases h : rowCheck m <;> simp [h, ih]

theorem validateGo_invalid (l : List MCPServerMeta) :
    (validateGo l).2.2 = (l.filter (fun m => (rowCheck m).isSome)).map serverName := by
  induction l with
  | nil => rfl
  | cons m rest ih =>
    simp only [validateGo]
    cases h : rowCheck m <;> simp [h, ih]

theorem validateServers_validServers (l : List MCPServerMeta) :
    (validateServers l).validServers = (l.filter (fun m => (rowCheck m).isNone)).map serverName :=
  validateGo_valid l

theorem validateServers_errors_fst (l : List MCPServerMeta) :
    (validateServers l).errors.map Prod.fst =
      (l.filter (fun m => (rowCheck m).isSome)).map serverName := by
  show (validateGo l).1.map Prod.fst = _
  rw [validateGo_errors]
  simp

theorem objInsert_keys (k : String) (v : MCPServerConfig) (l : List (String × MCPServerConfig))
    (x : String) :
    (x ∈ (objInsert k v l).map Prod.fst) ↔ x = k ∨ x ∈ l.map Prod.fst := by
  induction l with
  | nil => simp [objInsert]
  | cons kv rest ih =>
    obtain ⟨k0, v0⟩ := kv
    simp only [objInsert]
    split
    · rename_i h
      subst h
      simp
    · simp only [List.map_cons, List.mem_cons, ih]
      tauto

theorem foldl_objInsert_keys (rows : List DbServer) (acc : List (String × MCPServerConfig))
    (x : String) :
    (x ∈ ((rows.foldl (fun acc r => objInsert r.mcpServerUniqueId (adminEntry r) acc) acc).map
      Prod.fst)) ↔
      x ∈ acc.map Prod.fst ∨ x ∈ rows.map (fun r => r.mcpServerUniqueId) := by
  induction rows generalizing acc with
  | nil => simp
  | cons r rest ih =>
    simp only [List.foldl_cons, List.map_cons, List.mem_cons, ih, objInsert_keys]
    tauto

theorem getAllServersForAdmin_keys (db : List DbServer) (x : String) :
    (x ∈ (getAllServersForAdmin db).map Prod.fst) ↔
      x ∈ (adminRows db).map (fun r => r.mcpServerUniqueId) := by
  unfold getAllServersForAdmin
  simpa using foldl_objInsert_keys (adminRows db) [] x

theorem recSet_keys (k v : String) (l : List (String × String)) (x : String) :
    (x ∈ (recSet k v l).map Prod.fst) ↔ x = k ∨ x ∈ l.map Prod.fst := by
  induction l with
  | nil => simp [recSet]
  | cons kv rest ih =>
    obtain ⟨k0, v0⟩ := kv
    simp only [recSet]
    split
    · rename_i h
      subst h
      simp
    · simp only [List.map_cons, List.mem_cons, ih]
      tauto

theorem foldl_recSet_keys (errs : List (String × String)) (acc : List (String × String))
    (x : String) :
    (x ∈ ((errs.foldl (fun m p => recSet p.1 p.2 m) acc).map Prod.fst)) ↔
      x ∈ acc.map Prod.fst ∨ x ∈ errs.map Prod.fst := by
  induction errs generalizing acc with
  | nil => simp
  | cons p rest ih =>
    simp only [List.foldl_cons, List.map_cons, List.mem_cons, ih, recSet_keys]
    tauto

theorem filter_keys_mem (config : List (String × MCPServerConfig)) (vs : List String)
    (x : String) :
    (x ∈ (config.filter (fun kv => vs.contains kv.1)).map Prod.fst) ↔
      x ∈ config.map Prod.fst ∧ x ∈ vs := by
  constructor
  · intro h
    obtain ⟨kv, hkv, rfl⟩ := List.mem_map.mp h
    obtain ⟨hmem, hc⟩ := List.mem_filter.mp hkv
    exact ⟨List.mem_map.mpr ⟨kv, hmem, rfl⟩, by simpa using hc⟩
  · rintro ⟨h1, h2⟩
    obtain ⟨kv, hkv, rfl⟩ := List.mem_map.mp h1
    exact List.mem_map.mpr ⟨kv, List.mem_filter.mpr ⟨hkv, by simpa using h2⟩, rfl⟩

theorem serverName_metaRow (r : DbServer) (h : r.mcpServerUniqueId ≠ "") :
    serverName (metaRow r) = r.mcpServerUniqueId := by
  simp [serverName, metaRow, h]

@[simp] theorem validateServersM_lastError (s : MState) (t : Nat) (l : List MCPServerMeta) :
    (validateServersM s t l).2.lastError = s.lastError :=
  (eqButLogs_validateServersM s t l).lastError

@[simp] theorem cleanup_lastError (s : MState) (dir : List Nat) (t : Nat) :
    (cleanupOldConfigFiles s dir t).1.lastError = s.lastError :=
  (eqButLogs_cleanup s dir t).lastError

@[simp] theorem cleanup_validServers (s : MState) (dir : List Nat) (t : Nat) :
    (cleanupOldConfigFiles s dir t).1.validServers = s.validServers :=
  (eqButLogs_cleanup s dir t).validServers

@[simp] theorem cleanup_invalidServers (s : MState) (dir : List Nat) (t : Nat) :
    (cleanupOldConfigFiles s dir t).1.invalidServers = s.invalidServers :=
  (eqButLogs_cleanup s dir t).invalidServers

/-- The directory left behind by the retention cleanup (independent of the
manager state it logs into). -/
def cleanupDir (dir : List Nat) : List Nat :=
  if 3 < dir.length then (sortDesc dir).take 3 else dir

theorem cleanup_snd (s : MState) (dir : List Nat) (t : Nat) :
    (cleanupOldConfigFiles s dir t).2 = cleanupDir dir := by
  simp only [cleanupOldConfigFiles, cleanupDir]
  split <;> rfl

theorem cleanupDir_le (dir : List Nat) : (cleanupDir dir).length ≤ 3 := by
  simp only [cleanupDir]
  split
  · simp [List.length_take]
  · rename_i h
    omega

theorem generateConfig_path (db : List DbServer) (dir : List Nat) (s : MState) (now : Nat) :
    (generateConfig db dir s now).path =
      if (validateServers (getAllServersWithMetadataForAdmin db)).validServers.isEmpty then none
      else some now := by
  simp only [generateConfig, validateServersM_fst]
  split <;> rfl

theorem generateConfig_written (db : List DbServer) (dir : List Nat) (s : MState) (now : Nat)
    (hc : (validateServers (getAllServersWithMetadataForAdmin db)).validServers.isEmpty = false) :
    (generateConfig db dir s now).written =
      some ((getAllServersForAdmin db).filter
        (fun kv =>
          (validateServers (getAllServersWithMetadataForAdmin db)).validServers.contains kv.1)) := by
  simp only [generateConfig, validateServersM_fst, hc]
  rfl

theorem generateConfig_invalidServers (db : List DbServer) (dir : List Nat) (s : MState)
    (now : Nat) :
    (generateConfig db dir s now).mgr.invalidServers =
      (validateServers (getAllServersWithMetadataForAdmin db)).errors.foldl
        (fun m p => recSet p.1 p.2 m) [] := by
  simp only [generateConfig, validateServersM_fst]
  split <;> simp

theorem generateConfig_dir (db : List DbServer) (dir : List Nat) (s : MState) (now : Nat) :
    (generateConfig db dir s now).dir =
      if (validateServers (getAllServersWithMetadataForAdmin db)).validServers.isEmpty then dir
      else
        let dir2 :=
          if (cleanupDir dir).contains now then cleanupDir dir else cleanupDir dir ++ [now]
        match s.configFile with
        | some old => if old ≠ now then dir2.erase old else dir2
        | none => dir2 := by
  simp only [generateConfig, validateServersM_fst]
  split
  · rfl
  · simp [cleanup_snd]

@[simp] theorem push_maxSize {α : Type} (b : CircularBuffer α) (x : α) :
    (b.push x).maxSize = b.maxSize := by
  simp only [CircularBuffer.push]
  split <;> rfl

theorem push_length_le {α : Type} (b : CircularBuffer α) (x : α)
    (h : b.buffer.length ≤ b.maxSize) : (b.push x).buffer.length ≤ b.maxSize := by
  simp only [CircularBuffer.push]
  split
  · rename_i hlt
    simp only [List.length_tail, List.length_append, List.length_cons, List.length_nil]
    omega
  · rename_i hnlt
    simp only [List.length_append, List.length_cons, List.length_nil] at hnlt ⊢
    omega

theorem pushAll_length_le {α : Type} (b : CircularBuffer α) (items : List α)
    (h : b.buffer.length ≤ b.maxSize) : (b.pushAll items).buffer.length ≤ b.maxSize := by
  induction items generalizing b with
  | nil => exact h
  | cons x rest ih =>
    have h1 := push_length_le b x h
    have h2 := ih (b.push x) (by rw [push_maxSize]; exact h1)
    rw [← push_maxSize b x]
    simpa [CircularBuffer.pushAll] using h2

theorem push_full_evicts {α : Type} (b : CircularBuffer α) (x : α)
    (hfull : b.buffer.length = b.maxSize) (hpos : 0 < b.maxSize) :
    (b.push x).buffer = b.buffer.tail ++ [x] := by
  simp only [CircularBuffer.push]
  rw [if_pos]
  · cases hb : b.buffer with
    | nil =>
      rw [hb] at hfull
      simp at hfull
      omega
    | cons y ys => simp
  · simp only [List.length_append, List.length_cons, List.length_nil]
    omega

/-- A valid enabled local row. -/
def rowA : DbServer :=
  { mcpServerUniqueId := "a", name := "a", serverType := .Local,
    command := "cmd", args := [], remoteServerType := .sse, url := "",
    headers := none, enabled := true }

/-- An invalid enabled local row (empty command). -/
def rowZ : DbServer :=
  { mcpServerUniqueId := "z", name := "z", serverType := .Local,
    command := "", args := [], remoteServerType := .sse, url := "",
    headers := none, enabled := true }

/-- A valid local row that shares `mcpServerUniqueId` `x` with `rowX2`. -/
def rowX1 : DbServer :=
  { mcpServerUniqueId := "x", name := "a", serverType := .Local,
    command := "cmd", args := [], remoteServerType := .sse, url := "",
    headers := none, enabled := true }

/-- An invalid enabled remote row (non-http URL) with the same unique id
as `rowX1`. -/
def rowX2 : DbServer :=
  { mcpServerUniqueId := "x", name := "b", serverType := .Remote,
    command := "", args := [], remoteServerType := .sse, url := "ftp://x",
    headers := none, enabled := true }

/-- A world with pristine manager state, one valid server row and both
required environment values. -/
def w0A : World :=
  { mgr := initMState, dir := [], db := [rowA], apiKey := some "k", port := some "8000" }

/-- C5: every call to `restart()` increments `restartCount` by exactly 1
and sets `lastRestartAt` to the call time, from every starting state and
for every outcome of the subsequent `stop()`/`start()` (including throwing
ones). -/
theorem C5_restart_always_counts (w : World) (t t2 : Nat) (g : Bool) (k : Option String)
    (p : Option Nat) (ge : Option Int) :
    (restart w t t2 g k p ge).w.mgr.restartCount = w.mgr.restartCount + 1 ∧
    (restart w t t2 g k p ge).w.mgr.lastRestart = some t :=
  ⟨restart_rc w t t2 g k p ge, restart_lastRestart w t t2 g k p ge⟩

/-- C6: when no server definition validates, `generateConfig()` returns
the `null` failure indicator rather than throwing, leaves the scratch
directory untouched and writes no file. -/
theorem C6_all_invalid_returns_null (db : List DbServer) (dir : List Nat) (s : MState)
    (now : Nat)
    (h : (validateServers (getAllServersWithMetadataForAdmin db)).validServers = []) :
    (generateConfig db dir s now).path = none ∧
    (generateConfig db dir s now).dir = dir ∧
    (generateConfig db dir s now).written = none := by
  simp [generateConfig, validateServersM_fst, h]

/-- C6 witness: a single enabled local row with an empty command validates
nothing, so `generateConfig` fails and leaves the two pre-existing files
alone. -/
theorem C6_witness :
    (generateConfig [rowZ] [5, 6] initMState 10).path = none ∧
    (generateConfig [rowZ] [5, 6] initMState 10).dir = [5, 6] ∧
    (generateConfig [rowZ] [5, 6] initMState 10).written = none :=
  C6_all_invalid_returns_null [rowZ] [5, 6] initMState 10 (by decide)

/-- C8: after every `stop()` call on a reachable world — returning
normally, early as a no-op, or throwing — `isShuttingDown` is false. -/
theorem C8_stop_resets_flag (w : World) (t : Nat) (g : Bool) (k : Option String)
    (h : Reachable w) : (stop w t g k).w.mgr.isShuttingDown = false :=
  stop_flag w t g k (reachable_inv w h).1

/-- C8 witness at the initial world (with a throwing kill outcome the flag
still ends false). -/
theorem C8_witness : (stop w0A 5 true (some "boom")).w.mgr.isShuttingDown = false :=
  C8_stop_resets_flag w0A 5 true (some "boom") ⟨w0A, [], rfl, rfl⟩

/-- C9: a ring buffer below capacity never exceeds its capacity under any
sequence of pushes — in particular the 1000-entry log buffer and the
100-entry status-history buffer of the manager — and a push onto a full
buffer evicts exactly the oldest element, keeping the remaining elements
in oldest-first order with the new element appended. -/
theorem C9_buffer_bounds :
    (∀ (α : Type) (b : CircularBuffer α) (items : List α),
      b.buffer.length ≤ b.maxSize → (b.pushAll items).buffer.length ≤ b.maxSize) ∧
    (∀ items : List String, (initMState.logs.pushAll items).buffer.length ≤ 1000) ∧
    (∀ items : List StatusChange,
      (initMState.statusHistory.pushAll items).buffer.length ≤ 100) ∧
    (∀ (α : Type) (b : CircularBuffer α) (x : α),
      b.buffer.length = b.maxSize → 0 < b.maxSize →
        (b.push x).buffer = b.buffer.tail ++ [x]) := by
  refine ⟨fun α b items h => pushAll_length_le b items h, ?_, ?_,
    fun α b x h1 h2 => push_full_evicts b x h1 h2⟩
  · intro items
    exact pushAll_length_le initMState.logs items (by decide)
  · intro items
    exact pushAll_length_le initMState.statusHistory items (by decide)

/-- C9 witness: a capacity-2 buffer stays bounded and a full one evicts
its head. -/
theorem C9_witness :
    (CircularBuffer.pushAll ⟨["a"], 2⟩ ["b", "c", "d"]).buffer.length ≤ 2 ∧
    (CircularBuffer.push (⟨["a", "b"], 2⟩ : CircularBuffer String) "c").buffer = ["b", "c"] :=
  ⟨C9_buffer_bounds.1 String ⟨["a"], 2⟩ ["b", "c", "d"] (by decide),
   by
     rw [C9_buffer_bounds.2.2.2 String ⟨["a", "b"], 2⟩ "c" (by decide) (by decide)]
     rfl⟩

@[simp] theorem errorHandler_restartCount (s : MState) (m : String) (t : Nat) :
    (errorHandler s m t).restartCount = s.restartCount := rfl

/-- C10: `restartCount` never decreases across any supervisor step (no
operation resets it), and once it has reached 3 an unexpected exit
schedules no auto-restart. -/
theorem C10_restartCount_monotone :
    (∀ (w : World) (e : Event), w.mgr.restartCount ≤ (step w e).mgr.restartCount) ∧
    (∀ (s : MState) (c : Option Int) (sig : Option String) (t : Nat),
      3 ≤ s.restartCount → (exitHandler s c sig t).2 = none) := by
  constructor
  · intro w e
    cases e with
    | evStart t p g => simp [step, start_restartCount]
    | evStop t g k => simp [step, stop_restartCount]
    | evRestart t t2 g k p ge =>
      rw [step, restart_rc]
      omega
    | evProcExit t code sig =>
      simp only [step]
      cases hp : w.mgr.process with
      | none => exact le_refl _
      | some pr => simp
    | evProcError t msg =>
      simp only [step]
      split <;> simp
    | evGenerateConfig t => simp [step]
    | evSetDb db => exact le_refl _
  · intro s c sig t h
    simp only [exitHandler]
    split
    · rfl
    · split
      · rename_i hlt
        simp only [setStatus_restartCount, mlog_restartCount] at hlt
        omega
      · rfl

/-- C10 witness: a state with the budget exhausted schedules nothing, and
a concrete step does not decrease the counter. -/
theorem C10_witness :
    (exitHandler { initMState with restartCount := 3 } (some 1) none 0).2 = none ∧
    w0A.mgr.restartCount ≤ (step w0A (.evStop 1 true none)).mgr.restartCount :=
  ⟨C10_restartCount_monotone.2 { initMState with restartCount := 3 } (some 1) none 0
      (by decide),
   C10_restartCount_monotone.1 w0A (.evStop 1 true none)⟩

/-- The trace behind the C2 counterexample: a successful start at time 0
followed by an unexpected process exit at time 3000. -/
def c2trace : List Event :=
  [.evStart 0 (some 1) none, .evProcExit 3000 (some 1) none]

/-- C2 counterexample: after a crash the supervisor sits in `error` with
`startedAt` still set, so `getStatus().uptime` sampled at time 4000 is 2,
not 0, although the status is not `running`. -/
theorem C2_counterexample :
    (runTrace w0A c2trace).mgr.status = .error ∧
    (runTrace w0A c2trace).mgr.status ≠ .running ∧
    uptimeOf (runTrace w0A c2trace).mgr 4000 = 2 := by
  refine ⟨by decide, by decide, by decide⟩

/-- C2 amended: uptime is 0 exactly when `startedAt` is null — which holds
in every reachable `stopped` state, but not in every non-`running` state
(the `error` state after an unexpected exit keeps `startedAt`) — and
uptime is non-decreasing in the sample time while `startedAt` is
unchanged. -/
theorem C2_uptime_amended :
    (∀ (s : MState) (now : Nat), s.startTime = none → uptimeOf s now = 0) ∧
    (∀ (w : World) (now : Nat), Reachable w → w.mgr.status = .stopped →
      uptimeOf w.mgr now = 0) ∧
    (∀ (s : MState) (n1 n2 : Nat), n1 ≤ n2 → uptimeOf s n1 ≤ uptimeOf s n2) := by
  refine ⟨?_, ?_, ?_⟩
  · intro s now h
    simp [uptimeOf, h]
  · intro w now hr hs
    have hn := (reachable_inv w hr).2 hs
    simp [uptimeOf, hn]
  · intro s n1 n2 h
    unfold uptimeOf
    cases s.startTime with
    | none => exact le_refl 0
    | some st => exact Nat.div_le_div_right (Nat.sub_le_sub_right h st)

/-- C2 amended witness: the initial world is stopped with zero uptime, and
uptime between two samples of a fixed state is monotone. -/
theorem C2_witness :
    uptimeOf initMState 7 = 0 ∧
    uptimeOf (runTrace w0A []).mgr 9 = 0 ∧
    uptimeOf w0A.mgr 3 ≤ uptimeOf w0A.mgr 8 :=
  ⟨C2_uptime_amended.1 initMState 7 rfl,
   C2_uptime_amended.2.1 (runTrace w0A []) 9 ⟨w0A, [], rfl, rfl⟩ rfl,
   C2_uptime_amended.2.2 w0A.mgr 3 8 (by decide)⟩

/-- C3 counterexample: with exactly 3 pre-existing generated files and no
previous config-file reference, a successful `generateConfig` leaves 4
files (cleanup runs before the new file is written). -/
theorem C3_counterexample :
    (generateConfig [rowA] [1, 2, 3] initMState 10).path.isSome = true ∧
    ¬((generateConfig [rowA] [1, 2, 3] initMState 10).dir.length ≤ 3) := by
  refine ⟨by decide, by decide⟩

/-- C3 amended: a `generateConfig` call that returns a path leaves at most
4 generated config files — the at-most-3 kept by the cleanup step (which
runs before the new file is written) plus the new file — assuming the
best-effort deletions succeed. -/
theorem C3_retention_amended (db : List DbServer) (dir : List Nat) (s : MState) (now : Nat)
    (h : (generateConfig db dir s now).path.isSome = true) :
    (generateConfig db dir s now).dir.length ≤ 4 ∧
    (cleanupOldConfigFiles s dir now).2.length ≤ 3 := by
  refine ⟨?_, by rw [cleanup_snd]; exact cleanupDir_le dir⟩
  rw [generateConfig_path] at h
  rw [generateConfig_dir]
  by_cases hc :
      (validateServers (getAllServersWithMetadataForAdmin db)).validServers.isEmpty = true
  · rw [if_pos hc] at h
    simp at h
  · rw [if_neg hc] at h ⊢
    have hd2 :
        (if (cleanupDir dir).contains now then cleanupDir dir
         else cleanupDir dir ++ [now]).length ≤ 4 := by
      have hcl := cleanupDir_le dir
      split
      · omega
      · simp only [List.length_append, List.length_cons, List.length_nil]
        omega
    cases hcf : s.configFile with
    | none => exact hd2
    | some old =>
      dsimp only
      split
      · exact le_trans (List.Sublist.length_le (List.erase_sublist _ _)) hd2
      · exact hd2

/-- C3 amended witness: from a directory holding 5 stale files the call
keeps 3, writes 1, and stays within the bound. -/
theorem C3_witness :
    (generateConfig [rowA] [1, 2, 3, 4, 5] initMState 10).dir.length ≤ 4 ∧
    (cleanupOldConfigFiles initMState [1, 2, 3, 4, 5] 10).2.length ≤ 3 :=
  C3_retention_amended [rowA] [1, 2, 3, 4, 5] initMState 10 (by decide)

/-- A valid definition whose computed name is `x`. -/
def metaDup1 : MCPServerMeta :=
  { uniqueId := some "x", name := "a",
    config := { command := some (.str "cmd"), args := some (.arr []),
                typeField := none, url := none, headers := none } }

/-- An invalid definition (empty command) whose computed name is also
`x`. -/
def metaDup2 : MCPServerMeta :=
  { uniqueId := some "x", name := "b",
    config := { command := some (.str ""), args := some (.arr []),
                typeField := none, url := none, headers := none } }

/-- C4 counterexample: two definitions computing the same name `x`, one
valid and one invalid, put `x` in `validServers` and in the error map at
the same time. -/
theorem C4_counterexample :
    "x" ∈ (validateServers [metaDup1, metaDup2]).validServers ∧
    "x" ∈ (validateServers [metaDup1, metaDup2]).errors.map Prod.fst := by
  refine ⟨by decide, by decide⟩

/-- C4 amended: when the computed server names of the input are pairwise
distinct, every input name appears in exactly one of `validServers` and
the error map; and unconditionally `validServers` is populated in input
order (it is a subsequence of the name sequence of the input). -/
theorem C4_partition_amended (l : List MCPServerMeta) (h : (l.map serverName).Nodup) :
    (∀ x ∈ l.map serverName,
      (x ∈ (validateServers l).validServers ∧
        x ∉ (validateServers l).errors.map Prod.fst) ∨
      (x ∉ (validateServers l).validServers ∧
        x ∈ (validateServers l).errors.map Prod.fst)) ∧
    List.Sublist (validateServers l).validServers (l.map serverName) := by
  constructor
  · intro x hx
    rw [validateServers_validServers, validateServers_errors_fst]
    obtain ⟨m, hm, rfl⟩ := List.mem_map.mp hx
    cases hc : rowCheck m with
    | none =>
      left
      constructor
      · exact List.mem_map.mpr ⟨m, List.mem_filter.mpr ⟨hm, by simp [hc]⟩, rfl⟩
      · intro hcon
        obtain ⟨m2, hm2, heq⟩ := List.mem_map.mp hcon
        obtain ⟨hm2l, hm2p⟩ := List.mem_filter.mp hm2
        have hmm : m2 = m := List.inj_on_of_nodup_map h hm2l hm heq
        rw [hmm, hc] at hm2p
        simp at hm2p
    | some e =>
      right
      constructor
      · intro hcon
        obtain ⟨m2, hm2, heq⟩ := List.mem_map.mp hcon
        obtain ⟨hm2l, hm2p⟩ := List.mem_filter.mp hm2
        have hmm : m2 = m := List.inj_on_of_nodup_map h hm2l hm heq
        rw [hmm, hc] at hm2p
        simp at hm2p
      · exact List.mem_map.mpr ⟨m, List.mem_filter.mpr ⟨hm, by simp [hc]⟩, rfl⟩
  · rw [validateServers_validServers]
    exact (List.filter_sublist l).map serverName

/-- C4 amended witness at a two-element list with distinct names. -/
theorem C4_witness :
    (∀ x ∈ [metaRow rowA, metaRow rowZ].map serverName,
      (x ∈ (validateServers [metaRow rowA, metaRow rowZ]).validServers ∧
        x ∉ (validateServers [metaRow rowA, metaRow rowZ]).errors.map Prod.fst) ∨
      (x ∉ (validateServers [metaRow rowA, metaRow rowZ]).validServers ∧
        x ∈ (validateServers [metaRow rowA, metaRow rowZ]).errors.map Prod.fst)) ∧
    List.Sublist (validateServers [metaRow rowA, metaRow rowZ]).validServers
      ([metaRow rowA, metaRow rowZ].map serverName) :=
  C4_partition_amended [metaRow rowA, metaRow rowZ] (by decide)

/-- C1 counterexample: two enabled rows sharing unique id `x` — a valid
local one and an invalid remote one — make `generateConfig` return a path
whose written `mcpServers` object contains the key `x` even though `x` is
recorded in the invalid map. -/
theorem C1_counterexample :
    (generateConfig [rowX1, rowX2] [] initMState 0).path.isSome = true ∧
    "x" ∈ ((generateConfig [rowX1, rowX2] [] initMState 0).written.getD []).map Prod.fst ∧
    "x" ∈ (generateConfig [rowX1, rowX2] [] initMState 0).mgr.invalidServers.map Prod.fst := by
  refine ⟨by decide, by decide, by decide⟩

/-- C1 amended: for row lists whose enabled rows carry non-empty,
pairwise-distinct unique ids and at least one validating entry,
`generateConfig` returns a path, the `mcpServers` keys of the written file are
exactly the computed `validServers` (as a set), and no key of the invalid
map is written. -/
theorem C1_config_keys_amended (db : List DbServer) (dir : List Nat) (s : MState) (now : Nat)
    (h1 : ∀ r ∈ adminRows db, r.mcpServerUniqueId ≠ "")
    (h2 : ((adminRows db).map (fun r => r.mcpServerUniqueId)).Nodup)
    (h3 : (validateServers (getAllServersWithMetadataForAdmin db)).validServers ≠ []) :
    (generateConfig db dir s now).path = some now ∧
    ∃ content, (generateConfig db dir s now).written = some content ∧
      (∀ x, x ∈ content.map Prod.fst ↔
        x ∈ (validateServers (getAllServersWithMetadataForAdmin db)).validServers) ∧
      (∀ x ∈ (generateConfig db dir s now).mgr.invalidServers.map Prod.fst,
        x ∉ content.map Prod.fst) := by
  have hce :
      (validateServers (getAllServersWithMetadataForAdmin db)).validServers.isEmpty = false := by
    cases hE : (validateServers (getAllServersWithMetadataForAdmin db)).validServers.isEmpty
    · rfl
    · exact absurd (List.isEmpty_iff.mp hE) h3
  have hmetas : getAllServersWithMetadataForAdmin db = (adminRows db).map metaRow := rfl
  refine ⟨by rw [generateConfig_path, hce]; rfl,
    (getAllServersForAdmin db).filter
      (fun kv =>
        (validateServers (getAllServersWithMetadataForAdmin db)).validServers.contains kv.1),
    generateConfig_written db dir s now hce, ?_, ?_⟩
  · intro x
    rw [filter_keys_mem]
    constructor
    · exact fun hx => hx.2
    · intro hvs
      refine ⟨?_, hvs⟩
      rw [validateServers_validServers, hmetas] at hvs
      obtain ⟨m, hm, rfl⟩ := List.mem_map.mp hvs
      obtain ⟨hml, _⟩ := List.mem_filter.mp hm
      obtain ⟨r, hr, rfl⟩ := List.mem_map.mp hml
      rw [serverName_metaRow r (h1 r hr)]
      exact (getAllServersForAdmin_keys db _).mpr (List.mem_map.mpr ⟨r, hr, rfl⟩)
  · intro x hxinv hxcon
    rw [generateConfig_invalidServers] at hxinv
    have hxerr : x ∈ (validateServers (getAllServersWithMetadataForAdmin db)).errors.map
        Prod.fst := by
      have := (foldl_recSet_keys
        (validateServers (getAllServersWithMetadataForAdmin db)).errors [] x).mp hxinv
      simpa using this
    have hxvs := ((filter_keys_mem _ _ x).mp hxcon).2
    rw [validateServers_errors_fst, hmetas] at hxerr
    rw [validateServers_validServers, hmetas] at hxvs
    obtain ⟨m1, hm1, he1⟩ := List.mem_map.mp hxvs
    obtain ⟨hm1l, hm1p⟩ := List.mem_filter.mp hm1
    obtain ⟨r1, hr1, hr1e⟩ := List.mem_map.mp hm1l
    obtain ⟨m2, hm2, he2⟩ := List.mem_map.mp hxerr
    obtain ⟨hm2l, hm2p⟩ := List.mem_filter.mp hm2
    obtain ⟨r2, hr2, hr2e⟩ := List.mem_map.mp hm2l
    have hu1 : r1.mcpServerUniqueId = x := by
      rw [← he1, ← hr1e, serverName_metaRow r1 (h1 r1 hr1)]
    have hu2 : r2.mcpServerUniqueId = x := by
      rw [← he2, ← hr2e, serverName_metaRow r2 (h1 r2 hr2)]
    have hrr : r1 = r2 :=
      List.inj_on_of_nodup_map h2 hr1 hr2 (by rw [hu1, hu2])
    rw [← hr1e] at hm1p
    rw [← hr2e, ← hrr] at hm2p
    rw [Option.isNone_iff_eq_none.mp hm1p] at hm2p
    simp at hm2p

/-- World in the `running` state with `restartCount = 0`, reached by a
successful start at time 0. -/
def c7run : World :=
  runTrace w0A [.evStart 0 (some 1) none]

/-- First unexpected exit and the delay it schedules. -/
def c7x1 : MState × Option Nat :=
  exitHandler c7run.mgr (some 1) none 3000

/-- First auto-restart (clean stop, successful spawn). -/
def c7r1 : World :=
  (restart { c7run with mgr := c7x1.1 } 8000 8100 true none (some 2) none).w

/-- Second unexpected exit. -/
def c7x2 : MState × Option Nat :=
  exitHandler c7r1.mgr (some 1) none 20000

/-- Second auto-restart. -/
def c7r2 : World :=
  (restart { c7r1 with mgr := c7x2.1 } 30000 30100 true none (some 3) none).w

/-- Third unexpected exit. -/
def c7x3 : MState × Option Nat :=
  exitHandler c7r2.mgr (some 1) none 45000

/-- Third auto-restart. -/
def c7r3 : World :=
  (restart { c7r2 with mgr := c7x3.1 } 60000 60100 true none (some 4) none).w

/-- Fourth unexpected exit: budget exhausted. -/
def c7x4 : MState × Option Nat :=
  exitHandler c7r3.mgr (some 1) none 70000

/-- C7: starting from `restartCount = 0` in the running state, three
consecutive unexpected exits each schedule exactly one auto-restart with
linearly growing delays `5000 * (restartCount + 1)` = 5000, 10000, 15000;
after the third restart the counter is 3 and a fourth unexpected exit
leaves the supervisor in `error` with no further auto-restart
scheduled. -/
theorem C7_crash_backoff_scenario :
    c7run.mgr.status = .running ∧ c7run.mgr.restartCount = 0 ∧
    c7x1.2 = some (5000 * 1) ∧
    c7r1.mgr.restartCount = 1 ∧ c7r1.mgr.status = .running ∧
    c7x2.2 = some (5000 * 2) ∧
    c7r2.mgr.restartCount = 2 ∧ c7r2.mgr.status = .running ∧
    c7x3.2 = some (5000 * 3) ∧
    c7r3.mgr.restartCount = 3 ∧ c7r3.mgr.status = .running ∧
    c7x4.2 = none ∧ c7x4.1.status = .error := by
  refine ⟨by decide, by decide, by decide, by decide, by decide, by decide, by decide,
    by decide, by decide, by decide, by decide, by decide, by decide⟩

/-- C1 amended witness: one valid and one invalid row with distinct
non-empty ids. -/
theorem C1_witness :
    (generateConfig [rowA, rowZ] [] initMState 3).path = some 3 ∧
    ∃ content, (generateConfig [rowA, rowZ] [] initMState 3).written = some content ∧
      (∀ x, x ∈ content.map Prod.fst ↔
        x ∈ (validateServers (getAllServersWithMetadataForAdmin [rowA, rowZ])).validServers) ∧
      (∀ x ∈ (generateConfig [rowA, rowZ] [] initMState 3).mgr.invalidServers.map Prod.fst,
        x ∉ content.map Prod.fst) :=
  C1_config_keys_amended [rowA, rowZ] [] initMState 3 (by decide) (by decide) (by decide)

end MCPO
